import Mathlib

/-!
# Verification of the orchestration core of the essay-evaluation system

Shallow embedding of the resource-aware orchestration subsystem
(`src/utils/`): the circuit breaker in `oxygent_error_handler.py`, the
workflow state machine in `workflow_manager.py`, the state/cache layer in
`state_cache_manager.py`, the token/queue/governor layer in
`resource_optimizer.py`, and the monitor in `monitoring_system.py`.

Python `time.time()` timestamps are modelled as integers (`ℤ`), Python
dicts as association lists, fallible calls as `Except`, and mutation as
explicit state passing.
-/

namespace EssayEval

/-! ## Association lists: the model of Python `dict` -/

/-- Lookup in an association list (Python `d[k]` / `k in d`). -/
def alookup {β : Type} : List (String × β) → String → Option β
  | [], _ => none
  | (k', v) :: t, k => if k' = k then some v else alookup t k

/-- Update-or-insert (Python `d[k] = v`). -/
def aset {β : Type} : List (String × β) → String → β → List (String × β)
  | [], k, v => [(k, v)]
  | (k', v') :: t, k, v => if k' = k then (k, v) :: t else (k', v') :: aset t k v

/-- Key removal (Python `del d[k]`). -/
def aerase {β : Type} : List (String × β) → String → List (String × β)
  | [], _ => []
  | (k', v') :: t, k => if k' = k then aerase t k else (k', v') :: aerase t k

theorem alookup_aset_self {β : Type} (l : List (String × β)) (k : String) (v : β) :
    alookup (aset l k v) k = some v := by
  induction l with
  | nil => simp [aset, alookup]
  | cons p t ih =>
    obtain ⟨k', v'⟩ := p
    by_cases h : k' = k
    · simp [aset, alookup, h]
    · simp [aset, alookup, h, ih]

theorem alookup_aerase_self {β : Type} (l : List (String × β)) (k : String) :
    alookup (aerase l k) k = none := by
  induction l with
  | nil => simp [aerase, alookup]
  | cons p t ih =>
    obtain ⟨k', v'⟩ := p
    by_cases h : k' = k
    · simp [aerase, alookup, h, ih]
    · simp [aerase, alookup, h, ih]

/-! ## `oxygent_error_handler.py`: `OxyGentErrorHandler` circuit breaker

The per-agent entry of `self.circuit_breaker_state`, as initialised by
`create_oxygent_config` and mutated by `check_circuit_breaker`,
`record_error` and `record_success`.  All operations below model the
update of the entry for one registered agent.  -/

namespace ErrorHandler

/-- One entry of `OxyGentErrorHandler.circuit_breaker_state`. -/
structure CBState where
  errors : Nat
  threshold : Nat
  last_error_time : Option ℤ
  is_open : Bool
  next_retry_time : Option ℤ
deriving Repr, DecidableEq

/-- The state installed by `create_oxygent_config` (default threshold 5):
`{"errors": 0, "threshold": threshold, "last_error_time": None,
"is_open": False, "next_retry_time": None}`. -/
def initCB (threshold : Nat) : CBState :=
  { errors := 0, threshold := threshold, last_error_time := none
    is_open := false, next_retry_time := none }

/-- `check_circuit_breaker(agent_name)` for a registered agent, at time
`now`.  Mirrors the Python: when open, `if state["next_retry_time"] and
time.time() < state["next_retry_time"]` blocks, otherwise the breaker is
set to not-open ("half open") and the call is allowed.  The `t ≠ 0`
conjunct is Python truthiness of the stored float. -/
def check_circuit_breaker (s : CBState) (now : ℤ) : Bool × CBState :=
  if s.is_open then
    match s.next_retry_time with
    | some t =>
      if t ≠ 0 ∧ now < t then (false, s)
      else (true, { s with is_open := false })
    | none => (true, { s with is_open := false })
  else (true, s)

/-- `record_error(agent_name, error)` for a registered agent at time `now`:
increment `errors`, stamp `last_error_time`, and when
`errors >= threshold` open the breaker with `next_retry_time = now + 30`. -/
def record_error (s : CBState) (now : ℤ) : CBState :=
  let s1 := { s with errors := s.errors + 1, last_error_time := some now }
  if s1.threshold ≤ s1.errors then
    { s1 with is_open := true, next_retry_time := some (now + 30) }
  else s1

/-- `record_success(agent_name)` for a registered agent: reset the error
count and close the breaker if it was open. -/
def record_success (s : CBState) : CBState :=
  let s1 := { s with errors := 0 }
  if s1.is_open then { s1 with is_open := false } else s1

/-- A sequence of consecutive `record_error` calls at the given times. -/
def applyErrors (s : CBState) (ts : List ℤ) : CBState :=
  ts.foldl record_error s

theorem record_error_errors (s : CBState) (t : ℤ) :
    (record_error s t).errors = s.errors + 1 := by
  simp only [record_error]
  split <;> rfl

theorem record_error_threshold (s : CBState) (t : ℤ) :
    (record_error s t).threshold = s.threshold := by
  simp only [record_error]
  split <;> rfl

theorem applyErrors_errors (ts : List ℤ) :
    ∀ s : CBState, (applyErrors s ts).errors = s.errors + ts.length := by
  induction ts with
  | nil => intro s; simp [applyErrors]
  | cons t ts ih =>
    intro s
    simp only [applyErrors, List.foldl_cons, List.length_cons]
    have := ih (record_error s t)
    simp only [applyErrors] at this
    rw [this, record_error_errors]
    omega

theorem applyErrors_threshold (ts : List ℤ) :
    ∀ s : CBState, (applyErrors s ts).threshold = s.threshold := by
  induction ts with
  | nil => intro s; simp [applyErrors]
  | cons t ts ih =>
    intro s
    simp only [applyErrors, List.foldl_cons]
    have := ih (record_error s t)
    simp only [applyErrors] at this
    rw [this, record_error_threshold]

theorem applyErrors_append_last (s : CBState) (ts : List ℤ) (t : ℤ) :
    applyErrors s (ts ++ [t]) = record_error (applyErrors s ts) t := by
  simp [applyErrors]

theorem record_error_open (s : CBState) (t : ℤ) (h : s.threshold ≤ s.errors + 1) :
    record_error s t =
      { errors := s.errors + 1, threshold := s.threshold, last_error_time := some t
        is_open := true, next_retry_time := some (t + 30) } := by
  simp [record_error, h]

/-- The state reached from a fresh breaker by `ts.length + 1 ≥ threshold`
consecutive `record_error` calls, the last at time `t`. -/
theorem tripped_state (T : Nat) (ts : List ℤ) (t : ℤ) (hn : T ≤ ts.length + 1) :
    applyErrors (initCB T) (ts ++ [t]) =
      { errors := ts.length + 1, threshold := T, last_error_time := some t
        is_open := true, next_retry_time := some (t + 30) } := by
  rw [applyErrors_append_last]
  rw [record_error_open]
  · rw [applyErrors_errors, applyErrors_threshold]
    simp [initCB]
  · rw [applyErrors_errors, applyErrors_threshold]
    simpa [initCB] using hn

/-- C1 counterexample: with the default threshold 5, after five consecutive
`record_error` calls the breaker blocks at time 105; at time 135 (cooldown
elapsed) the first `check_circuit_breaker` grants a probe, but a second
`check_circuit_breaker` before any outcome is recorded is granted as well,
contradicting the claim that no further allow()==true occurs until the
probe's outcome is recorded. -/
theorem circuit_breaker_second_probe :
    (check_circuit_breaker (applyErrors (initCB 5) [100, 101, 102, 103, 104]) 105).1 = false ∧
    (check_circuit_breaker (applyErrors (initCB 5) [100, 101, 102, 103, 104]) 135).1 = true ∧
    (check_circuit_breaker
      (check_circuit_breaker (applyErrors (initCB 5) [100, 101, 102, 103, 104]) 135).2
      135).1 = true := by
  refine ⟨?_, ?_, ?_⟩ <;> decide

/-- C1 (amended): after at least `threshold ≥ 1` consecutive `record_error`
calls with no intervening `record_success`, the last at time `t ≥ 0`,
`check_circuit_breaker` returns false at any time before `t + 30`; once the
cooldown has elapsed the next `check_circuit_breaker` returns true and sets
the breaker to not-open, after which FURTHER `check_circuit_breaker` calls
also return true before the probe's outcome is recorded (the probe is not
exclusive); recording the probe's failure re-opens the breaker (the error
count was never reset) and recording its success resets the count with the
breaker closed. -/
theorem circuit_breaker_amended (T : Nat) (ts : List ℤ) (t now now2 : ℤ)
    (_hT : 1 ≤ T) (hn : T ≤ ts.length + 1) (ht : 0 ≤ t) :
    (now < t + 30 →
      (check_circuit_breaker (applyErrors (initCB T) (ts ++ [t])) now).1 = false) ∧
    (t + 30 ≤ now →
      (check_circuit_breaker (applyErrors (initCB T) (ts ++ [t])) now).1 = true ∧
      (check_circuit_breaker (applyErrors (initCB T) (ts ++ [t])) now).2.is_open = false ∧
      (check_circuit_breaker
        (check_circuit_breaker (applyErrors (initCB T) (ts ++ [t])) now).2 now2).1 = true ∧
      (record_error
        (check_circuit_breaker (applyErrors (initCB T) (ts ++ [t])) now).2 now2).is_open
          = true ∧
      (record_success
        (check_circuit_breaker (applyErrors (initCB T) (ts ++ [t])) now).2).errors = 0 ∧
      (record_success
        (check_circuit_breaker (applyErrors (initCB T) (ts ++ [t])) now).2).is_open
          = false) := by
  rw [tripped_state T ts t hn]
  have ht30 : t + 30 ≠ 0 := by omega
  constructor
  · intro hlt
    simp [check_circuit_breaker, ht30, hlt]
  · intro hge
    have hnlt : ¬ now < t + 30 := by omega
    have h1 :
        check_circuit_breaker
          { errors := ts.length + 1, threshold := T, last_error_time := some t
            is_open := true, next_retry_time := some (t + 30) } now =
        (true,
          { errors := ts.length + 1, threshold := T, last_error_time := some t
            is_open := false, next_retry_time := some (t + 30) }) := by
      simp [check_circuit_breaker, hnlt]
    rw [h1]
    refine ⟨rfl, rfl, by simp [check_circuit_breaker], ?_, ?_, ?_⟩
    · rw [record_error_open _ _ (by simp; omega)]
    · simp [record_success]
    · simp [record_success]

/-- Witness for `circuit_breaker_amended` at threshold 5, five errors ending
at time 104, first check at 140 and follow-up at 141. -/
theorem circuit_breaker_amended_witness :
    1 ≤ 5 ∧ 5 ≤ [(100 : ℤ), 101, 102, 103].length + 1 ∧ (0 : ℤ) ≤ 104 ∧
    ((140 : ℤ) < 104 + 30 →
      (check_circuit_breaker (applyErrors (initCB 5) ([100, 101, 102, 103] ++ [104])) 140).1
        = false) ∧
    ((104 : ℤ) + 30 ≤ 140 →
      (check_circuit_breaker (applyErrors (initCB 5) ([100, 101, 102, 103] ++ [104])) 140).1
          = true ∧
      (check_circuit_breaker
        (applyErrors (initCB 5) ([100, 101, 102, 103] ++ [104])) 140).2.is_open = false ∧
      (check_circuit_breaker
        (check_circuit_breaker
          (applyErrors (initCB 5) ([100, 101, 102, 103] ++ [104])) 140).2 141).1 = true ∧
      (record_error
        (check_circuit_breaker
          (applyErrors (initCB 5) ([100, 101, 102, 103] ++ [104])) 140).2 141).is_open
            = true ∧
      (record_success
        (check_circuit_breaker
          (applyErrors (initCB 5) ([100, 101, 102, 103] ++ [104])) 140).2).errors = 0 ∧
      (record_success
        (check_circuit_breaker
          (applyErrors (initCB 5) ([100, 101, 102, 103] ++ [104])) 140).2).is_open
            = false) :=
  ⟨by decide, by decide, by decide,
    (circuit_breaker_amended 5 [100, 101, 102, 103] 104 140 141
      (by decide) (by decide) (by decide)).1,
    (circuit_breaker_amended 5 [100, 101, 102, 103] 104 140 141
      (by decide) (by decide) (by decide)).2⟩

end ErrorHandler

/-! ## `workflow_manager.py`: `WorkflowManager`

The step state machine.  Step handlers are abstract parameters
(`Handlers α ε`): a handler takes the current context and either returns
a result of type `α` or raises an exception of type `ε` (Python
`Exception`).  The `input_data` and `metadata` payload fields of
`WorkflowContext` are carried opaquely by the concrete Python handlers
and are omitted here: the claims under verification concern only control
flow, `step_status`, `step_results` and the returned result.  The third
component returned by `execute_workflow` below is an instrumentation
log: the list of steps whose handler was actually invoked, in order. -/

namespace Workflow

/-- `WorkflowStep` enum. -/
inductive WorkflowStep
  | input_validation
  | template_generation
  | parallel_analysis
  | report_generation
  | output_formatting
deriving Repr, DecidableEq

/-- `StepStatus` enum. -/
inductive StepStatus
  | pending
  | running
  | completed
  | failed
  | skipped
deriving Repr, DecidableEq

/-- `self.standard_workflow`: the fixed step order. -/
def standard_workflow : List WorkflowStep :=
  [.input_validation, .template_generation, .parallel_analysis,
   .report_generation, .output_formatting]

/-- `WorkflowContext` (payload fields `input_data`/`metadata` omitted, see
the section comment). -/
structure WorkflowContext (α : Type) where
  session_id : String
  request_type : String
  current_step : WorkflowStep
  step_results : WorkflowStep → Option α
  step_status : WorkflowStep → StepStatus
  start_time : ℤ

/-- `context.step_status[step] = st`. -/
def setStatus {α : Type} (c : WorkflowContext α) (step : WorkflowStep)
    (st : StepStatus) : WorkflowContext α :=
  { c with step_status := fun s => if s = step then st else c.step_status s }

/-- `context.step_results[step] = r`. -/
def setResult {α : Type} (c : WorkflowContext α) (step : WorkflowStep)
    (r : α) : WorkflowContext α :=
  { c with step_results := fun s => if s = step then some r else c.step_results s }

/-- `self.step_handlers.get(step)`: the handler table.  In the source,
`_setup_step_handlers` installs a handler for every step; a claim may
still quantify over arbitrary tables, mirroring `if handler:`. -/
def Handlers (α ε : Type) : Type :=
  WorkflowStep → Option (WorkflowContext α → Except ε α)

/-- The value returned by `execute_workflow`: either the
`OUTPUT_FORMATTING` result or the `partial_completion` dictionary built
by `_generate_final_result`. -/
inductive FinalResult (α : Type)
  | formatted (r : α)
  | partial_completion (session_id : String)
      (completed_steps : List WorkflowStep)
      (available_results : List (WorkflowStep × α))
deriving Repr, DecidableEq

/-- What `execute_workflow` can raise: the `ValueError` for an unknown
session, or the re-raised step-handler exception. -/
inductive WFError (ε : Type)
  | session_not_found (sid : String)
  | step_error (e : ε)
deriving Repr, DecidableEq

/-- `WorkflowManager` state: `active_workflows` and `workflow_history`. -/
structure Manager (α : Type) where
  active_workflows : List (String × WorkflowContext α)
  workflow_history : List (WorkflowContext α)

/-- `WorkflowManager.__init__`: empty maps.  This is also the entire
in-memory state a freshly restarted process has: no method of
`WorkflowManager` writes any durable snapshot (in particular
`StateManager.save_workflow_state` is never called). -/
def initManager {α : Type} : Manager α :=
  { active_workflows := [], workflow_history := [] }

/-- `start_workflow(session_id, request_type, input_data)`: create the
context with every step `PENDING` and register it. -/
def start_workflow {α : Type} (m : Manager α) (sid rtype : String) (now : ℤ) :
    Manager α × WorkflowContext α :=
  let c : WorkflowContext α :=
    { session_id := sid, request_type := rtype
      current_step := .input_validation
      step_results := fun _ => none
      step_status := fun _ => .pending
      start_time := now }
  ({ m with active_workflows := aset m.active_workflows sid c }, c)

/-- `_archive_workflow`: append to history (bounded to the last 100) and
remove from `active_workflows` (keyed by `context.session_id`). -/
def archive_workflow {α : Type} (m : Manager α) (c : WorkflowContext α) :
    Manager α :=
  let hist := m.workflow_history ++ [c]
  { active_workflows := aerase m.active_workflows c.session_id
    workflow_history := if 100 < hist.length then hist.drop (hist.length - 100) else hist }

/-- `_execute_step(context, step)`: set `current_step` and `RUNNING`, call
the handler; on success store the result and `COMPLETED`, on a raise mark
`FAILED` and re-raise (second component), with no handler `SKIPPED`.  The
third component records whether the handler was invoked. -/
def execute_step {α ε : Type} (H : Handlers α ε) (c : WorkflowContext α)
    (step : WorkflowStep) : WorkflowContext α × Option ε × Bool :=
  let c1 := setStatus { c with current_step := step } step .running
  match H step with
  | some handler =>
    match handler c1 with
    | .ok r => (setStatus (setResult c1 step r) step .completed, none, true)
    | .error e => (setStatus c1 step .failed, some e, true)
  | none => (setStatus c1 step .skipped, none, false)

/-- The `for step in self.standard_workflow` loop of `execute_workflow`:
skip `COMPLETED` steps, run the rest, `break` on a `FAILED` status, and
abort the loop when a handler raises (third component).  The middle
component is the log of steps whose handler was invoked. -/
def run_steps {α ε : Type} (H : Handlers α ε) :
    List WorkflowStep → WorkflowContext α →
      WorkflowContext α × List WorkflowStep × Option ε
  | [], c => (c, [], none)
  | step :: rest, c =>
    if c.step_status step = StepStatus.completed then
      run_steps H rest c
    else
      match execute_step H c step with
      | (c1, some e, _) => (c1, [step], some e)
      | (c1, none, inv) =>
        if c1.step_status step = StepStatus.failed then
          (c1, if inv then [step] else [], none)
        else
          let r := run_steps H rest c1
          (r.1, (if inv then [step] else []) ++ r.2.1, r.2.2)

/-- `_generate_final_result(context)`: the `OUTPUT_FORMATTING` result if
present, else the `partial_completion` summary. -/
def generate_final_result {α : Type} (c : WorkflowContext α) : FinalResult α :=
  match c.step_results .output_formatting with
  | some r => .formatted r
  | none =>
    .partial_completion c.session_id
      (standard_workflow.filter (fun s => c.step_status s = StepStatus.completed))
      (standard_workflow.filterMap (fun s => (c.step_results s).map (fun r => (s, r))))

/-- `execute_workflow(session_id)`.  Unknown session: `ValueError`.  A
handler exception reaches the `except` clause, which marks the current
step `FAILED` and re-raises; the (mutated) context stays in
`active_workflows`.  Otherwise the final result is generated and the
context is archived. -/
def execute_workflow {α ε : Type} (H : Handlers α ε) (m : Manager α)
    (sid : String) :
    Except (WFError ε) (FinalResult α) × Manager α × List WorkflowStep :=
  match alookup m.active_workflows sid with
  | none => (.error (.session_not_found sid), m, [])
  | some c =>
    let r := run_steps H standard_workflow c
    match r.2.2 with
    | some e =>
      let c2 := setStatus r.1 r.1.current_step .failed
      (.error (.step_error e),
        { m with active_workflows := aset m.active_workflows sid c2 }, r.2.1)
    | none =>
      (.ok (generate_final_result r.1),
        archive_workflow
          { m with active_workflows := aset m.active_workflows sid r.1 } r.1,
        r.2.1)

theorem setStatus_self {α : Type} (c : WorkflowContext α) (step : WorkflowStep)
    (st : StepStatus) : (setStatus c step st).step_status step = st := by
  simp [setStatus]

theorem setStatus_ne {α : Type} (c : WorkflowContext α) (step s : WorkflowStep)
    (st : StepStatus) (h : s ≠ step) :
    (setStatus c step st).step_status s = c.step_status s := by
  simp [setStatus, h]

theorem execute_step_current {α ε : Type} (H : Handlers α ε)
    (c : WorkflowContext α) (step : WorkflowStep) :
    (execute_step H c step).1.current_step = step := by
  simp only [execute_step]
  split
  · split <;> rfl
  · rfl

theorem execute_step_status_ne {α ε : Type} (H : Handlers α ε)
    (c : WorkflowContext α) (step s : WorkflowStep) (hs : s ≠ step) :
    (execute_step H c step).1.step_status s = c.step_status s := by
  simp only [execute_step]
  split
  · split <;> simp [setStatus, setResult, hs]
  · simp [setStatus, hs]

theorem execute_step_results_ne {α ε : Type} (H : Handlers α ε)
    (c : WorkflowContext α) (step s : WorkflowStep) (hs : s ≠ step) :
    (execute_step H c step).1.step_results s = c.step_results s := by
  simp only [execute_step]
  split
  · split <;> simp [setStatus, setResult, hs]
  · simp [setStatus]

theorem execute_step_failed_of_error {α ε : Type} (H : Handlers α ε)
    (c c1 : WorkflowContext α) (step : WorkflowStep) (e : ε) (inv : Bool)
    (hE : execute_step H c step = (c1, some e, inv)) :
    c1.step_status step = .failed := by
  revert hE
  simp only [execute_step]
  split
  · split
    · intro hE
      simp at hE
    · intro hE
      have h1 := congrArg Prod.fst hE
      simp only at h1
      rw [← h1]
      simp [setStatus]
  · intro hE
    simp at hE

/-- A run over steps that are all already `COMPLETED` touches nothing and
invokes no handler. -/
theorem run_steps_all_completed {α ε : Type} (H : Handlers α ε) :
    ∀ (l : List WorkflowStep) (c : WorkflowContext α),
      (∀ s ∈ l, c.step_status s = StepStatus.completed) →
      run_steps H l c = (c, [], none) := by
  intro l
  induction l with
  | nil => intro c _; rfl
  | cons step rest ih =>
    intro c h
    have hc : c.step_status step = StepStatus.completed := h step (by simp)
    simp only [run_steps, if_pos hc]
    exact ih c (fun s hs => h s (by simp [hs]))

/-- A step whose status is `COMPLETED` is never re-invoked by the loop, and
its stored result and status survive the run. -/
theorem run_steps_preserve {α ε : Type} (H : Handlers α ε) (S : WorkflowStep) :
    ∀ (l : List WorkflowStep) (c : WorkflowContext α),
      c.step_status S = StepStatus.completed →
      (run_steps H l c).1.step_status S = StepStatus.completed ∧
      (run_steps H l c).1.step_results S = c.step_results S ∧
      S ∉ (run_steps H l c).2.1 := by
  intro l
  induction l with
  | nil => intro c hS; simp [run_steps, hS]
  | cons step rest ih =>
    intro c hS
    by_cases hc : c.step_status step = StepStatus.completed
    · simpa only [run_steps, if_pos hc] using ih c hS
    · have hne : S ≠ step := fun h => hc (h ▸ hS)
      rcases hE : execute_step H c step with ⟨c1, err, inv⟩
      have hst : c1.step_status S = StepStatus.completed := by
        have := execute_step_status_ne H c step S hne
        rw [hE] at this
        rw [this]; exact hS
      have hres : c1.step_results S = c.step_results S := by
        have := execute_step_results_ne H c step S hne
        rw [hE] at this
        exact this
      simp only [run_steps, if_neg hc, hE]
      cases err with
      | some e => simp [hst, hres, hne]
      | none =>
        by_cases hf : c1.step_status step = StepStatus.failed
        · simp only [if_pos hf]
          refine ⟨hst, hres, ?_⟩
          cases inv <;> simp [hne]
        · simp only [if_neg hf]
          obtain ⟨h1, h2, h3⟩ := ih c1 hst
          refine ⟨h1, h2.trans hres, ?_⟩
          intro hmem
          rcases List.mem_append.mp hmem with hmem | hmem
          · cases inv <;> simp at hmem
            exact hne hmem
          · exact h3 hmem

/-- When a handler raises, the loop stops: the fixed list splits as
`pre ++ [failed step] ++ post`, the failed step (the final
`current_step`) is marked `FAILED`, every later step keeps the status it
had before the run, and every invoked step lies in `pre ++ [failed step]`. -/
theorem run_steps_error_shape {α ε : Type} (H : Handlers α ε) :
    ∀ (l : List WorkflowStep), l.Nodup →
      ∀ (c c' : WorkflowContext α) (log : List WorkflowStep) (e : ε),
        run_steps H l c = (c', log, some e) →
        ∃ pre post, l = pre ++ c'.current_step :: post ∧
          c'.step_status c'.current_step = StepStatus.failed ∧
          (∀ s ∈ post, c'.step_status s = c.step_status s) ∧
          (∀ s ∈ log, s ∈ pre ∨ s = c'.current_step) := by
  intro l
  induction l with
  | nil => intro _ c c' log e h; simp [run_steps] at h
  | cons step rest ih =>
    intro hnd c c' log e h
    have hstep_notin : step ∉ rest := (List.nodup_cons.mp hnd).1
    have hrest_nd : rest.Nodup := (List.nodup_cons.mp hnd).2
    by_cases hc : c.step_status step = StepStatus.completed
    · rw [run_steps, if_pos hc] at h
      obtain ⟨pre, post, hdec, hfail, hpost, hlog⟩ := ih hrest_nd c c' log e h
      exact ⟨step :: pre, post, by simp [hdec], hfail, hpost,
        fun s hs => by rcases hlog s hs with h' | h' <;> simp [h']⟩
    · rw [run_steps, if_neg hc] at h
      rcases hE : execute_step H c step with ⟨c1, err, inv⟩
      rw [hE] at h
      cases err with
      | some e' =>
        simp only at h
        injection h with h1 h2
        injection h2 with h3 h4
        rw [← h1, ← h3]
        have hcur : c1.current_step = step := by
          have := execute_step_current H c step
          rw [hE] at this
          exact this
        refine ⟨[], rest, by simp [hcur], ?_, ?_, ?_⟩
        · rw [hcur]
          exact execute_step_failed_of_error H c c1 step e' inv hE
        · intro s hs
          have hsne : s ≠ step := fun hh => hstep_notin (hh ▸ hs)
          have := execute_step_status_ne H c step s hsne
          rw [hE] at this
          exact this
        · intro s hs
          simp at hs
          right
          rw [hcur, hs]
      | none =>
        by_cases hf : c1.step_status step = StepStatus.failed
        · simp [if_pos hf] at h
        · simp only [if_neg hf] at h
          rcases hr : run_steps H rest c1 with ⟨c₂, log₂, err₂⟩
          rw [hr] at h
          simp only at h
          injection h with h1 h2
          injection h2 with h3 h4
          rw [h4] at hr
          obtain ⟨pre, post, hdec, hfail, hpost, hlog⟩ := ih hrest_nd c1 c₂ log₂ e hr
          rw [← h1, ← h3]
          refine ⟨step :: pre, post, by simp [hdec], hfail, ?_, ?_⟩
          · intro s hs
            have hsrest : s ∈ rest := by
              rw [hdec]
              simp [hs]
            have hsne : s ≠ step := fun hh => hstep_notin (hh ▸ hsrest)
            rw [hpost s hs]
            have := execute_step_status_ne H c step s hsne
            rw [hE] at this
            exact this
          · intro s hs
            rcases List.mem_append.mp hs with hs' | hs'
            · left
              cases inv <;> simp at hs'
              simp [hs']
            · rcases hlog s hs' with h' | h'
              · left; simp [h']
              · right; exact h'

/-! Concrete scenarios for the workflow claims: step results and
exceptions are numbers. -/

/-- A handler table in which every step handler succeeds and returns 1
(a stand-in for the five concrete handlers of `_setup_step_handlers`). -/
def okHandlers : Handlers Nat Nat := fun _ => some (fun _ => Except.ok 1)

/-- A handler table in which the `TEMPLATE_GENERATION` handler raises
(exception 42) and every other handler succeeds. -/
def failTemplateHandlers : Handlers Nat Nat := fun s =>
  match s with
  | .template_generation => some (fun _ => Except.error 42)
  | _ => some (fun _ => Except.ok 1)

/-- A manager holding exactly the freshly started session `"s1"`. -/
def mgr1 : Manager Nat :=
  (start_workflow initManager "s1" "essay_evaluation" 0).1

/-- The first, completing run of session `"s1"`. -/
def run1 : Except (WFError Nat) (FinalResult Nat) × Manager Nat × List WorkflowStep :=
  execute_workflow okHandlers mgr1 "s1"

/-- A manager holding exactly the freshly started session `"s3"`. -/
def mgr3 : Manager Nat :=
  (start_workflow initManager "s3" "essay_evaluation" 0).1

/-- The context of the freshly started session `"s3"`. -/
def ctx3 : WorkflowContext Nat :=
  (start_workflow (initManager : Manager Nat) "s3" "essay_evaluation" 0).2

/-- The run of session `"s3"` in which `TEMPLATE_GENERATION` raises. -/
def run3 : Except (WFError Nat) (FinalResult Nat) × Manager Nat × List WorkflowStep :=
  execute_workflow failTemplateHandlers mgr3 "s3"

/-- A context with all five steps COMPLETED, still registered in
`active_workflows` (session `"s2"`). -/
def doneCtx : WorkflowContext Nat :=
  { session_id := "s2", request_type := "essay_evaluation"
    current_step := .output_formatting
    step_results := fun _ => some 1
    step_status := fun _ => .completed
    start_time := 0 }

/-- A manager holding the completed-but-not-yet-archived session `"s2"`. -/
def mgrDone : Manager Nat :=
  { active_workflows := [("s2", doneCtx)], workflow_history := [] }

/-- C2 counterexample: session `"s1"` runs to completion (all five handlers
succeed, final result is the `OUTPUT_FORMATTING` result), but
`_archive_workflow` removed it from `active_workflows`, so invoking
`execute_workflow("s1")` again raises
`ValueError("未找到工作流程: s1")` instead of returning the same final
result. -/
theorem execute_workflow_rerun_raises :
    run1.1 = Except.ok (FinalResult.formatted 1) ∧
    (execute_workflow okHandlers run1.2.1 "s1").1
      = Except.error (WFError.session_not_found "s1") :=
  ⟨rfl, rfl⟩

/-- C2 (amended): for a session still present in `active_workflows` with
all five steps COMPLETED, `execute_workflow` invokes no step handler and
returns the final result regenerated from the stored context (the stored
`OUTPUT_FORMATTING` result); but completion archives the context out of
`active_workflows`, so an actual re-invocation of an already-COMPLETED
session raises `ValueError` rather than returning that result. -/
theorem execute_workflow_idempotent_amended {α ε : Type} (H : Handlers α ε)
    (m : Manager α) (sid : String) (ctx : WorkflowContext α) :
    (alookup m.active_workflows sid = some ctx →
      (∀ s ∈ standard_workflow, ctx.step_status s = StepStatus.completed) →
      (execute_workflow H m sid).1 = Except.ok (generate_final_result ctx) ∧
      (execute_workflow H m sid).2.2 = []) ∧
    (alookup m.active_workflows sid = none →
      (execute_workflow H m sid).1 = Except.error (WFError.session_not_found sid)) := by
  constructor
  · intro hl hcomp
    have hrun := run_steps_all_completed H standard_workflow ctx hcomp
    constructor <;> simp [execute_workflow, hl, hrun]
  · intro hl
    simp [execute_workflow, hl]

/-- Witness for `execute_workflow_idempotent_amended`: the all-COMPLETED
session `"s2"` (both implications exercised, the second at an unknown
session id). -/
theorem execute_workflow_idempotent_amended_witness :
    ((execute_workflow okHandlers mgrDone "s2").1
        = Except.ok (generate_final_result doneCtx) ∧
      (execute_workflow okHandlers mgrDone "s2").2.2 = []) ∧
    (execute_workflow okHandlers mgrDone "zz").1
      = Except.error (WFError.session_not_found "zz") :=
  ⟨(execute_workflow_idempotent_amended okHandlers mgrDone "s2" doneCtx).1
      rfl (by decide),
    (execute_workflow_idempotent_amended okHandlers mgrDone "zz" doneCtx).2 rfl⟩

/-- C3 counterexample: in session `"s3"` INPUT_VALIDATION completes, then
TEMPLATE_GENERATION fails; the completed step lives only in the in-memory
`active_workflows` (no snapshot was written — no `WorkflowManager` method
calls any persistence API).  After a process restart
(`WorkflowManager.__init__` state), re-invoking the workflow does not skip
the completed step and resume at its successor: it raises `ValueError` and
invokes no handler at all. -/
theorem workflow_restart_loses_state :
    (alookup run3.2.1.active_workflows "s3").map
        (fun c => c.step_status WorkflowStep.input_validation)
      = some StepStatus.completed ∧
    (execute_workflow failTemplateHandlers (initManager : Manager Nat) "s3").1
      = Except.error (WFError.session_not_found "s3") ∧
    (execute_workflow failTemplateHandlers (initManager : Manager Nat) "s3").2.2 = [] :=
  ⟨rfl, rfl, rfl⟩

/-- C3 (amended): resumability is in-memory only.  While the session is
still in `active_workflows`, a re-invocation never re-invokes a COMPLETED
step S and the run carries S's stored in-memory result (and COMPLETED
status) through unchanged; but no durable snapshot is ever written, so
against a freshly restarted manager `execute_workflow` raises `ValueError`
and resumes nothing. -/
theorem workflow_resume_in_memory_only {α ε : Type} (H : Handlers α ε)
    (m : Manager α) (sid : String) (ctx : WorkflowContext α) (S : WorkflowStep)
    (hl : alookup m.active_workflows sid = some ctx)
    (hS : ctx.step_status S = StepStatus.completed) :
    S ∉ (execute_workflow H m sid).2.2 ∧
    (run_steps H standard_workflow ctx).1.step_results S = ctx.step_results S ∧
    (run_steps H standard_workflow ctx).1.step_status S = StepStatus.completed ∧
    (execute_workflow H (initManager : Manager α) sid).1
      = Except.error (WFError.session_not_found sid) ∧
    (execute_workflow H (initManager : Manager α) sid).2.2 = [] := by
  obtain ⟨h1, h2, h3⟩ := run_steps_preserve H S standard_workflow ctx hS
  refine ⟨?_, h2, h1, ?_, ?_⟩
  · simp only [execute_workflow, hl]
    rcases hr : run_steps H standard_workflow ctx with ⟨c1, log, err⟩
    rw [hr] at h3
    simp only at h3
    cases err <;> simpa using h3
  · simp [execute_workflow, initManager, alookup]
  · simp [execute_workflow, initManager, alookup]

/-- Witness for `workflow_resume_in_memory_only`: session `"s2"` with
INPUT_VALIDATION completed. -/
theorem workflow_resume_in_memory_only_witness :
    WorkflowStep.input_validation ∉ (execute_workflow okHandlers mgrDone "s2").2.2 ∧
    (run_steps okHandlers standard_workflow doneCtx).1.step_results
        WorkflowStep.input_validation = doneCtx.step_results WorkflowStep.input_validation ∧
    (run_steps okHandlers standard_workflow doneCtx).1.step_status
        WorkflowStep.input_validation = StepStatus.completed ∧
    (execute_workflow okHandlers (initManager : Manager Nat) "s2").1
      = Except.error (WFError.session_not_found "s2") ∧
    (execute_workflow okHandlers (initManager : Manager Nat) "s2").2.2 = [] :=
  workflow_resume_in_memory_only okHandlers mgrDone "s2" doneCtx
    WorkflowStep.input_validation rfl rfl

/-- C4 counterexample: when the TEMPLATE_GENERATION handler raises 42,
`execute_workflow` re-raises it to its caller (the run's first component
is the propagated exception, not an `ok` partial result), contradicting
the claim that the raw exception is not propagated and a partial result is
returned. -/
theorem step_failure_raises :
    run3.1 = Except.error (WFError.step_error 42) ∧
    run3.2.2 = [WorkflowStep.input_validation, WorkflowStep.template_generation] :=
  ⟨rfl, rfl⟩

/-- C4 (amended): when a step handler raises, `execute_workflow` stops at
that step, marks it FAILED in the context left in `active_workflows`, and
invokes no later step's handler — but it re-raises the handler's exception
to the caller instead of returning a partial result (the
`_generate_final_result` partial result is only produced on the
non-raising paths). -/
theorem step_failure_propagates {α ε : Type} (H : Handlers α ε)
    (m : Manager α) (sid : String) (ctx c' : WorkflowContext α)
    (log : List WorkflowStep) (e : ε)
    (hl : alookup m.active_workflows sid = some ctx)
    (hrun : run_steps H standard_workflow ctx = (c', log, some e)) :
    (execute_workflow H m sid).1 = Except.error (WFError.step_error e) ∧
    (execute_workflow H m sid).2.2 = log ∧
    alookup (execute_workflow H m sid).2.1.active_workflows sid
      = some (setStatus c' c'.current_step StepStatus.failed) ∧
    (setStatus c' c'.current_step StepStatus.failed).step_status c'.current_step
      = StepStatus.failed ∧
    ∃ pre post, standard_workflow = pre ++ c'.current_step :: post ∧
      ∀ s ∈ post, s ∉ log ∧ c'.step_status s = ctx.step_status s := by
  have hnd : standard_workflow.Nodup := by decide
  obtain ⟨pre, post, hdec, hfail, hpost, hlog⟩ :=
    run_steps_error_shape H standard_workflow hnd ctx c' log e hrun
  have hnd2 : (pre ++ c'.current_step :: post).Nodup := hdec ▸ hnd
  rw [List.nodup_append] at hnd2
  obtain ⟨-, hnd3, hdisj⟩ := hnd2
  have hcur_notin : c'.current_step ∉ post := (List.nodup_cons.mp hnd3).1
  refine ⟨?_, ?_, ?_, setStatus_self c' c'.current_step StepStatus.failed,
    pre, post, hdec, ?_⟩
  · simp [execute_workflow, hl, hrun]
  · simp [execute_workflow, hl, hrun]
  · simp only [execute_workflow, hl, hrun]
    exact alookup_aset_self _ _ _
  · intro s hs
    refine ⟨?_, hpost s hs⟩
    intro hmem
    rcases hlog s hmem with h' | h'
    · exact hdisj h' (by simp [hs])
    · exact hcur_notin (h' ▸ hs)

/-- Witness for `step_failure_propagates`: session `"s3"` whose
TEMPLATE_GENERATION handler raises 42. -/
theorem step_failure_propagates_witness :
    (execute_workflow failTemplateHandlers mgr3 "s3").1
      = Except.error (WFError.step_error 42) ∧
    (execute_workflow failTemplateHandlers mgr3 "s3").2.2
      = (run_steps failTemplateHandlers standard_workflow ctx3).2.1 ∧
    alookup (execute_workflow failTemplateHandlers mgr3 "s3").2.1.active_workflows "s3"
      = some (setStatus (run_steps failTemplateHandlers standard_workflow ctx3).1
          (run_steps failTemplateHandlers standard_workflow ctx3).1.current_step
          StepStatus.failed) ∧
    (setStatus (run_steps failTemplateHandlers standard_workflow ctx3).1
        (run_steps failTemplateHandlers standard_workflow ctx3).1.current_step
        StepStatus.failed).step_status
      (run_steps failTemplateHandlers standard_workflow ctx3).1.current_step
      = StepStatus.failed ∧
    ∃ pre post, standard_workflow
        = pre ++ (run_steps failTemplateHandlers standard_workflow ctx3).1.current_step
            :: post ∧
      ∀ s ∈ post, s ∉ (run_steps failTemplateHandlers standard_workflow ctx3).2.1 ∧
        (run_steps failTemplateHandlers standard_workflow ctx3).1.step_status s
          = ctx3.step_status s :=
  step_failure_propagates failTemplateHandlers mgr3 "s3" ctx3
    (run_steps failTemplateHandlers standard_workflow ctx3).1
    (run_steps failTemplateHandlers standard_workflow ctx3).2.1 42 rfl rfl

end Workflow

/-! ## `resource_optimizer.py`: `TokenManager`, `AsyncTaskQueue`,
`ResourceOptimizer`

`TokenManager` guards its counters with a non-reentrant
`threading.Lock`; the lock is modelled explicitly (a `locked` flag for
"the calling thread already holds `self.lock`"), and an acquisition that
can never succeed — acquiring a non-reentrant lock already held by the
same thread — yields `none` (the call blocks forever).  Python float
arithmetic on the static multipliers is modelled exactly as rational
`num/den` scaling with `int()` as floor. -/

namespace Resource

/-- `TokenManager` state (without the lock, which is threaded explicitly). -/
structure TokenManager where
  max_tokens_per_minute : Nat
  max_tokens_per_request : Nat
  token_usage_history : List (ℤ × Nat)
  current_minute_tokens : Nat
  last_reset_time : ℤ
deriving Repr, DecidableEq

/-- `TokenManager.__init__` defaults at start time `now`. -/
def initTM (now : ℤ) : TokenManager :=
  { max_tokens_per_minute := 10000, max_tokens_per_request := 2000
    token_usage_history := [], current_minute_tokens := 0, last_reset_time := now }

/-- `_reset_minute_counter`: lazy window reset. -/
def reset_minute_counter (tm : TokenManager) (now : ℤ) : TokenManager :=
  if 60 ≤ now - tm.last_reset_time then
    { tm with current_minute_tokens := 0, last_reset_time := now }
  else tm

/-- The body of `can_consume_tokens` once `self.lock` is held. -/
def can_consume_tokens_body (tm : TokenManager) (tokens : Nat) (now : ℤ) :
    Bool × TokenManager :=
  let tm1 := reset_minute_counter tm now
  if tm1.max_tokens_per_request < tokens then (false, tm1)
  else if tm1.max_tokens_per_minute < tm1.current_minute_tokens + tokens then (false, tm1)
  else (true, tm1)

/-- `can_consume_tokens(tokens)`: `with self.lock: ...`.  `locked` records
whether the calling thread already holds the non-reentrant
`threading.Lock`; if so, the acquisition blocks forever (`none`). -/
def can_consume_tokens (locked : Bool) (tm : TokenManager) (tokens : Nat)
    (now : ℤ) : Option (Bool × TokenManager) :=
  if locked then none
  else some (can_consume_tokens_body tm tokens now)

/-- `consume_tokens(tokens)`: acquires `self.lock` and then — still
holding it — calls `self.can_consume_tokens(tokens)`, which tries to
acquire the same lock again. -/
def consume_tokens (tm : TokenManager) (tokens : Nat) (now : ℤ) :
    Option (Bool × TokenManager) :=
  match can_consume_tokens true tm tokens now with
  | none => none
  | some (ok, tm1) =>
    if ok then
      some (true,
        { tm1 with
          current_minute_tokens := tm1.current_minute_tokens + tokens
          token_usage_history :=
            (tm1.token_usage_history ++ [(now, tokens)]).reverse.take 60 |>.reverse })
    else some (false, tm1)

/-- `estimate_wait_time(tokens)`: calls `can_consume_tokens` while NOT
holding the lock (this call does not deadlock). -/
def estimate_wait_time (tm : TokenManager) (tokens : Nat) (now : ℤ) : ℤ :=
  match can_consume_tokens false tm tokens now with
  | some (true, _) => 0
  | _ => max 0 (tm.last_reset_time + 60 - now)

/-- C6 (code bug): every call to `consume_tokens` self-deadlocks —
`consume_tokens` enters `with self.lock` and then calls
`can_consume_tokens`, whose own `with self.lock` can never be acquired
(`threading.Lock` is not reentrant) — so no call ever returns a boolean,
let alone performs the claimed atomic check-then-commit.  The module's
own `__main__` self-test (`tm.consume_tokens(300)`) hangs. -/
theorem consume_tokens_deadlocks (tm : TokenManager) (tokens : Nat) (now : ℤ) :
    consume_tokens tm tokens now = none := by
  simp [consume_tokens, can_consume_tokens]

/-- `TaskPriority` enum. -/
inductive TaskPriority
  | low
  | normal
  | high
  | urgent
deriving Repr, DecidableEq

/-- The enum values LOW=1, NORMAL=2, HIGH=3, URGENT=4. -/
def TaskPriority.value : TaskPriority → Int
  | .low => 1
  | .normal => 2
  | .high => 3
  | .urgent => 4

/-- One tuple put on `self.task_queue`:
`(-priority.value, time.time(), task_id, agent_name, task_func, args, kwargs)`
— the callable and its arguments abstracted as `work`. -/
structure TaskItem (α ε : Type) where
  neg_priority : Int
  submit_time : ℤ
  task_id : String
  agent_name : String
  work : Unit → Except ε α

/-- Tuple comparison as `asyncio.PriorityQueue` (a heap over Python
tuples) performs it: `neg_priority` first, then `submit_time`, then
`task_id`. -/
def itemLeB {α ε : Type} (a b : TaskItem α ε) : Bool :=
  decide (a.neg_priority < b.neg_priority) ||
    (decide (a.neg_priority = b.neg_priority) &&
      (decide (a.submit_time < b.submit_time) ||
        (decide (a.submit_time = b.submit_time) &&
          (decide (a.task_id < b.task_id) || decide (a.task_id = b.task_id)))))

/-- `AsyncTaskQueue` state (the long-lived worker tasks and the
`completed_tasks` metrics log are not needed by any claim). -/
structure AsyncTaskQueue (α ε : Type) where
  max_workers : Nat
  task_queue : List (TaskItem α ε)
  task_counter : Nat

/-- `AsyncTaskQueue.__init__`. -/
def initQueue {α ε : Type} (max_workers : Nat) : AsyncTaskQueue α ε :=
  { max_workers := max_workers, task_queue := [], task_counter := 0 }

/-- `submit_task(agent_name, task_func, priority)` at time `now`:
generate `task_id = f"{agent_name}_{task_counter}_{int(now)}"`, bump the
counter and enqueue the tuple. -/
def submit_task {α ε : Type} (q : AsyncTaskQueue α ε) (agent_name : String)
    (work : Unit → Except ε α) (priority : TaskPriority) (now : ℤ) :
    String × AsyncTaskQueue α ε :=
  let task_id := agent_name ++ "_" ++ toString q.task_counter ++ "_" ++ toString now
  (task_id,
    { q with
      task_counter := q.task_counter + 1
      task_queue := q.task_queue ++
        [{ neg_priority := -priority.value, submit_time := now
           task_id := task_id, agent_name := agent_name, work := work }] })

/-- `task_queue.get()`: remove the least tuple (the heap minimum). -/
def pop_min {α ε : Type} :
    List (TaskItem α ε) → Option (TaskItem α ε × List (TaskItem α ε))
  | [] => none
  | x :: xs =>
    match pop_min xs with
    | none => some (x, [])
    | some (m, rest) => if itemLeB x m then some (x, xs) else some (m, x :: rest)

/-- The order in which the `_worker` loop dispatches the queued units:
repeatedly `get()` the minimum. -/
def drainAux {α ε : Type} : Nat → List (TaskItem α ε) → List (TaskItem α ε)
  | 0, _ => []
  | Nat.succ n, q =>
    match pop_min q with
    | none => []
    | some (m, rest) => m :: drainAux n rest

/-- Dispatch order of a queue none of whose units a worker has taken yet. -/
def drain {α ε : Type} (q : List (TaskItem α ε)) : List (TaskItem α ε) :=
  drainAux q.length q

/-- `_should_use_queue`: the "heavy" agents. -/
def should_use_queue (agent_name : String) : Bool :=
  agent_name = "text_analyst" || agent_name = "reporter" || agent_name = "master_agent"

/-- `_get_task_priority`: the static per-agent priority table. -/
def get_task_priority (agent_name : String) : TaskPriority :=
  if agent_name = "master_agent" then .urgent
  else if agent_name = "instructional_designer" then .high
  else if agent_name = "reporter" then .high
  else if agent_name = "text_analyst" then .normal
  else if agent_name = "praiser" then .low
  else if agent_name = "guide" then .low
  else .normal

/-- `_estimate_token_usage` multipliers, as exact rationals `num/den`
(1.5, 1.3, 1.2, 1.1, 0.8, 0.9, default 1.0). -/
def agent_multiplier (agent_name : String) : Nat × Nat :=
  if agent_name = "text_analyst" then (3, 2)
  else if agent_name = "reporter" then (13, 10)
  else if agent_name = "master_agent" then (6, 5)
  else if agent_name = "instructional_designer" then (11, 10)
  else if agent_name = "praiser" then (4, 5)
  else if agent_name = "guide" then (9, 10)
  else (1, 1)

/-- `_estimate_token_usage`: `int((200 + total_chars // 2) * multiplier)`. -/
def estimate_token_usage (agent_name : String) (total_chars : Nat) : Nat :=
  let estimated := 200 + total_chars / 2
  let m := agent_multiplier agent_name
  estimated * m.1 / m.2

/-- What `optimize_execution` returns: the inline result, or the task id
of the queued unit (returned without awaiting the work). -/
inductive ExecOutcome (α : Type)
  | result (a : α)
  | task_id (id : String)
deriving Repr, DecidableEq

/-- `optimize_execution(agent_name, task_func, ...)`.  The throttling
backoff and the token-budget wait are pure sleeps — the third component
accumulates the slept duration; they reject nothing.  Heavy agents are
routed to `submit_task` with the static priority and the task id is
returned at once; others are awaited inline, so only their exceptions
propagate.  `throttle` abstracts the psutil-based `should_throttle()`
sample. -/
def optimize_execution {α ε : Type} (throttle : Bool) (tm : TokenManager)
    (q : AsyncTaskQueue α ε) (agent_name : String) (work : Unit → Except ε α)
    (total_chars : Nat) (now : ℤ) :
    Except ε (ExecOutcome α) × AsyncTaskQueue α ε × ℤ :=
  let sleep1 : ℤ := if throttle then 1 else 0
  let estimated := estimate_token_usage agent_name total_chars
  let sleep2 : ℤ :=
    match can_consume_tokens false tm estimated now with
    | some (true, _) => 0
    | _ => estimate_wait_time tm estimated now
  if should_use_queue agent_name then
    let r := submit_task q agent_name work (get_task_priority agent_name) now
    (.ok (.task_id r.1), r.2, sleep1 + sleep2)
  else
    match work () with
    | .ok a => (.ok (.result a), q, sleep1 + sleep2)
    | .error e => (.error e, q, sleep1 + sleep2)

/-- C5 counterexample: `"text_analyst"` is flagged heavy; with a work
callable that raises (exception 7), `optimize_execution` returns
`.ok` with the generated task id — the enqueued work's failure is NOT
propagated to the caller of `optimize_execution` (the unit merely sits
in the queue). -/
theorem heavy_agent_failure_not_propagated :
    (optimize_execution false (initTM 0) (initQueue 3) "text_analyst"
        (fun _ => (Except.error 7 : Except Nat Nat)) 0 0).1
      = Except.ok (ExecOutcome.task_id "text_analyst_0_0") ∧
    ((optimize_execution false (initTM 0) (initQueue 3) "text_analyst"
        (fun _ => (Except.error 7 : Except Nat Nat)) 0 0).2.1.task_queue.map
      fun i => i.agent_name) = ["text_analyst"] :=
  ⟨rfl, rfl⟩

/-- C5 (amended): `optimize_execution` never fails a call of its own
(every error it returns is the inline work's own exception); for
non-heavy agents the work's failure propagates to the caller; for heavy
agents the call is routed to `submit_task` with the static per-agent
priority and the task id is returned immediately, so a failure of the
queued work does NOT propagate to the caller of `optimize_execution`. -/
theorem optimize_execution_amended {α ε : Type} (throttle : Bool)
    (tm : TokenManager) (q : AsyncTaskQueue α ε) (agent : String)
    (work : Unit → Except ε α) (chars : Nat) (now : ℤ) :
    (∀ e, (optimize_execution throttle tm q agent work chars now).1 = Except.error e →
      should_use_queue agent = false ∧ work () = Except.error e) ∧
    (should_use_queue agent = false →
      ∀ e, work () = Except.error e →
        (optimize_execution throttle tm q agent work chars now).1 = Except.error e) ∧
    (should_use_queue agent = true →
      (optimize_execution throttle tm q agent work chars now).1
        = Except.ok (ExecOutcome.task_id
            (submit_task q agent work (get_task_priority agent) now).1) ∧
      (optimize_execution throttle tm q agent work chars now).2.1
        = (submit_task q agent work (get_task_priority agent) now).2) := by
  refine ⟨?_, ?_, ?_⟩
  · intro e he
    by_cases hq : should_use_queue agent = true
    · exfalso
      revert he
      simp [optimize_execution, hq]
    · have hq' : should_use_queue agent = false := by simpa using hq
      refine ⟨hq', ?_⟩
      cases hw : work () with
      | ok a =>
        exfalso
        revert he
        simp [optimize_execution, hq', hw]
      | error e' =>
        have h2 : (optimize_execution throttle tm q agent work chars now).1
            = Except.error e' := by
          simp [optimize_execution, hq', hw]
        rw [h2] at he
        injection he with h3
        rw [h3]
  · intro hq e hw
    simp [optimize_execution, hq, hw]
  · intro hq
    constructor <;> simp [optimize_execution, hq]

/-- Witness for `optimize_execution_amended`: the inline agent
`"praiser"` propagates its work's exception 7; the heavy agent
`"reporter"` gets queued and returns a task id despite its work raising. -/
theorem optimize_execution_amended_witness :
    should_use_queue "praiser" = false ∧
    (optimize_execution false (initTM 0) (initQueue 3) "praiser"
        (fun _ => (Except.error 7 : Except Nat Nat)) 0 0).1 = Except.error 7 ∧
    should_use_queue "reporter" = true ∧
    (optimize_execution false (initTM 0) (initQueue 3) "reporter"
        (fun _ => (Except.error 7 : Except Nat Nat)) 0 0).1
      = Except.ok (ExecOutcome.task_id
          (submit_task (initQueue 3) "reporter"
            (fun _ => (Except.error 7 : Except Nat Nat))
            (get_task_priority "reporter") 0).1) :=
  ⟨rfl,
    (optimize_execution_amended false (initTM 0) (initQueue 3) "praiser"
        (fun _ => (Except.error 7 : Except Nat Nat)) 0 0).2.1 rfl 7 rfl,
    rfl,
    ((optimize_execution_amended false (initTM 0) (initQueue 3) "reporter"
        (fun _ => (Except.error 7 : Except Nat Nat)) 0 0).2.2 rfl).1⟩

/-- C8: units A(NORMAL, t1), B(HIGH, t2), C(NORMAL, t3) with t1 < t2 < t3,
submitted before any worker dispatches, are dispatched in the order
B, A, C — highest priority first (the heap orders by
`(-priority.value, submit_time, ...)`), FIFO by submission time within a
tier. -/
theorem scheduler_priority_order {α ε : Type} (t1 t2 t3 : ℤ)
    (wA wB wC : Unit → Except ε α) (h12 : t1 < t2) (h23 : t2 < t3) :
    ((drain (submit_task (submit_task (submit_task
          (initQueue 3 : AsyncTaskQueue α ε)
          "A" wA TaskPriority.normal t1).2
          "B" wB TaskPriority.high t2).2
          "C" wC TaskPriority.normal t3).2.task_queue).map
        fun i => i.agent_name) = ["B", "A", "C"] := by
  have h13 : t1 < t3 := lt_trans h12 h23
  simp [submit_task, initQueue, drain, drainAux, pop_min, itemLeB,
    TaskPriority.value, h12, h23, h13]

/-- Witness for `scheduler_priority_order` at times 10 < 20 < 30. -/
theorem scheduler_priority_order_witness :
    (10 : ℤ) < 20 ∧ (20 : ℤ) < 30 ∧
    ((drain (submit_task (submit_task (submit_task
          (initQueue 3 : AsyncTaskQueue Nat Nat)
          "A" (fun _ => Except.ok 0) TaskPriority.normal 10).2
          "B" (fun _ => Except.ok 0) TaskPriority.high 20).2
          "C" (fun _ => Except.ok 0) TaskPriority.normal 30).2.task_queue).map
        fun i => i.agent_name) = ["B", "A", "C"] :=
  ⟨by decide, by decide,
    scheduler_priority_order 10 20 30 (fun _ => Except.ok 0) (fun _ => Except.ok 0)
      (fun _ => Except.ok 0) (by decide) (by decide)⟩

end Resource

/-! ## `state_cache_manager.py`: `IntelligentCache`

The two tiers are maps from cache key to `CacheEntry`; the disk tier
models the `cache_<key>.pkl` files.  `_generate_cache_key` is a
deterministic hash of the normalised `(agent_name, request)` content and
is not needed to state the claims, which quantify over the key. -/

namespace Cache

/-- `CacheEntry`. -/
structure CacheEntry (α : Type) where
  key : String
  data : α
  timestamp : ℤ
  ttl : ℤ
  agent_name : String
  request_hash : String
deriving Repr, DecidableEq

/-- `CacheEntry.is_expired`: `time.time() > self.timestamp + self.ttl`. -/
def is_expired {α : Type} (e : CacheEntry α) (now : ℤ) : Bool :=
  decide (e.timestamp + e.ttl < now)

/-- `IntelligentCache` state. -/
structure IntelligentCache (α : Type) where
  default_ttl : ℤ
  memory_cache : List (String × CacheEntry α)
  disk_cache : List (String × CacheEntry α)
  hit_count : Nat
  miss_count : Nat

/-- `_load_from_disk(cache_key)`: no file → `None`; expired entry →
unlink the file and `None`; otherwise promote the entry into the memory
tier and return its data. -/
def load_from_disk {α : Type} (c : IntelligentCache α) (key : String) (now : ℤ) :
    Option α × IntelligentCache α :=
  match alookup c.disk_cache key with
  | none => (none, c)
  | some e =>
    if is_expired e now then (none, { c with disk_cache := aerase c.disk_cache key })
    else (some e.data, { c with memory_cache := aset c.memory_cache key e })

/-- The disk phase of `get`: `cached_data = self._load_from_disk(...)`,
then `if cached_data:` (Python truthiness of the payload, `truthy`) hits,
else the miss counter is bumped. -/
def get_disk_phase {α : Type} (truthy : α → Bool) (c : IntelligentCache α)
    (key : String) (now : ℤ) : Option α × IntelligentCache α :=
  let r := load_from_disk c key now
  match r.1 with
  | some d =>
    if truthy d then (some d, { r.2 with hit_count := r.2.hit_count + 1 })
    else (none, { r.2 with miss_count := r.2.miss_count + 1 })
  | none => (none, { r.2 with miss_count := r.2.miss_count + 1 })

/-- `get(agent_name, oxy_request)` at the already-computed cache key:
memory tier first (an expired memory entry is deleted and the lookup
falls through to disk), then the disk phase. -/
def get {α : Type} (truthy : α → Bool) (c : IntelligentCache α) (key : String)
    (now : ℤ) : Option α × IntelligentCache α :=
  match alookup c.memory_cache key with
  | some e =>
    if ¬ is_expired e now then
      (some e.data, { c with hit_count := c.hit_count + 1 })
    else
      get_disk_phase truthy { c with memory_cache := aerase c.memory_cache key } key now
  | none => get_disk_phase truthy c key now

/-- `set(agent_name, oxy_request, result, ttl)` at the computed key:
`ttl = ttl or self.default_ttl` (Python truthiness: `None` or `0` fall
back to the default), then write the same entry to both tiers. -/
def set {α : Type} (c : IntelligentCache α) (key : String) (result : α)
    (ttl : Option ℤ) (now : ℤ) (agent_name request_hash : String) :
    IntelligentCache α :=
  let t := match ttl with
    | some v => if v ≠ 0 then v else c.default_ttl
    | none => c.default_ttl
  let e : CacheEntry α :=
    { key := key, data := result, timestamp := now, ttl := t
      agent_name := agent_name, request_hash := request_hash }
  { c with
    memory_cache := aset c.memory_cache key e
    disk_cache := aset c.disk_cache key e }

/-- C7: whenever every entry stored under a key — in the memory tier
and/or the disk tier; `set` always writes both tiers together, so at any
reachable state the two tiers agree at a key — is expired at `now`,
`get` at `now` returns a miss, the expired entries are evicted from the
tiers they were found in, and the miss counter is bumped. -/
theorem cache_expired_get_misses {α : Type} (truthy : α → Bool)
    (c : IntelligentCache α) (key : String) (now : ℤ)
    (hmem : ∀ e, alookup c.memory_cache key = some e → is_expired e now = true)
    (hdisk : ∀ e, alookup c.disk_cache key = some e → is_expired e now = true) :
    (get truthy c key now).1 = none ∧
    alookup (get truthy c key now).2.memory_cache key = none ∧
    alookup (get truthy c key now).2.disk_cache key = none ∧
    (get truthy c key now).2.miss_count = c.miss_count + 1 := by
  cases hm : alookup c.memory_cache key with
  | none =>
    cases hd : alookup c.disk_cache key with
    | none =>
      simp [get, hm, get_disk_phase, load_from_disk, hd]
    | some e =>
      have he := hdisk e hd
      simp [get, hm, get_disk_phase, load_from_disk, hd, he, alookup_aerase_self]
  | some e =>
    have he := hmem e hm
    cases hd : alookup c.disk_cache key with
    | none =>
      simp [get, hm, he, get_disk_phase, load_from_disk, hd, alookup_aerase_self]
    | some e' =>
      have he' := hdisk e' hd
      simp [get, hm, he, get_disk_phase, load_from_disk, hd, he',
        alookup_aerase_self]

/-- A concrete expired entry for the C7 witness. -/
def staleEntry : CacheEntry Nat :=
  { key := "k", data := 5, timestamp := 0, ttl := 10
    agent_name := "text_analyst", request_hash := "h" }

/-- A cache holding `staleEntry` in both tiers (as `set` leaves it). -/
def staleCache : IntelligentCache Nat :=
  { default_ttl := 3600, memory_cache := [("k", staleEntry)]
    disk_cache := [("k", staleEntry)], hit_count := 0, miss_count := 0 }

/-- Witness for `cache_expired_get_misses`: at time 11 the entry written
at 0 with ttl 10 is expired in both tiers; `get` misses and evicts. -/
theorem cache_expired_get_misses_witness :
    (get (fun n => decide (n ≠ 0)) staleCache "k" 11).1 = none ∧
    alookup (get (fun n => decide (n ≠ 0)) staleCache "k" 11).2.memory_cache "k" = none ∧
    alookup (get (fun n => decide (n ≠ 0)) staleCache "k" 11).2.disk_cache "k" = none ∧
    (get (fun n => decide (n ≠ 0)) staleCache "k" 11).2.miss_count
      = staleCache.miss_count + 1 :=
  cache_expired_get_misses (fun n => decide (n ≠ 0)) staleCache "k" 11
    (fun e h => by
      have h' : staleEntry = e := by
        have := h
        simp [staleCache, alookup] at this
        exact this
      rw [← h']
      decide)
    (fun e h => by
      have h' : staleEntry = e := by
        have := h
        simp [staleCache, alookup] at this
        exact this
      rw [← h']
      decide)

end Cache

/-! ## `monitoring_system.py`: `SystemMonitor`

Percentages, rates and response times are Python floats, modelled as
rationals.  The psutil samples (`cpu_percent`, `memory_percent`) and the
`component_stats`-derived agent count are inputs.  Alert `metadata`, the
human-readable message text and the alert-handler callbacks do not
affect the alert list's identity conditions and are elided (the message
field is kept but filled with the empty string by `check_alerts`). -/

namespace Monitor

/-- `AlertLevel` enum. -/
inductive AlertLevel
  | info
  | warning
  | error
  | critical
deriving Repr, DecidableEq

/-- `Alert` (metadata elided). -/
structure Alert where
  level : AlertLevel
  title : String
  message : String
  component : String
  timestamp : ℤ
  resolved : Bool
  resolution_time : Option ℤ
deriving Repr, DecidableEq

/-- The cumulative counters of `self.stats` (per-agent dicts elided). -/
structure Stats where
  total_requests : Nat
  successful_requests : Nat
  failed_requests : Nat
  total_response_time : ℚ
deriving Repr, DecidableEq

/-- `SystemMonitor.__init__` counters. -/
def initStats : Stats :=
  { total_requests := 0, successful_requests := 0, failed_requests := 0
    total_response_time := 0 }

/-- `record_request(success, response_time, agent_name)`. -/
def record_request (st : Stats) (success : Bool) (response_time : ℚ) : Stats :=
  { total_requests := st.total_requests + 1
    successful_requests :=
      if success then st.successful_requests + 1 else st.successful_requests
    failed_requests :=
      if success then st.failed_requests else st.failed_requests + 1
    total_response_time := st.total_response_time + response_time }

/-- `HealthMetrics` (the `component_status` snapshot is not needed by any
claim). -/
structure HealthMetrics where
  timestamp : ℤ
  cpu_percent : ℚ
  memory_percent : ℚ
  active_agents : Nat
  error_rate : ℚ
  response_time : ℚ
  success_rate : ℚ
deriving Repr, DecidableEq

/-- `_collect_health_metrics`: the rate computations, guarded by
`if total_requests > 0` with the fresh-state fallback
`(0.0, 1.0, 0.0)`. -/
def collect_health_metrics (st : Stats) (cpu mem : ℚ) (active : Nat)
    (now : ℤ) : HealthMetrics :=
  if 0 < st.total_requests then
    { timestamp := now, cpu_percent := cpu, memory_percent := mem
      active_agents := active
      error_rate := (st.failed_requests : ℚ) / (st.total_requests : ℚ)
      response_time := st.total_response_time / (st.total_requests : ℚ)
      success_rate := (st.successful_requests : ℚ) / (st.total_requests : ℚ) }
  else
    { timestamp := now, cpu_percent := cpu, memory_percent := mem
      active_agents := active
      error_rate := 0, response_time := 0, success_rate := 1 }

/-- The default `alert_thresholds`. -/
structure Thresholds where
  cpu_percent : ℚ
  memory_percent : ℚ
  error_rate : ℚ
  response_time : ℚ
  success_rate : ℚ
deriving Repr, DecidableEq

/-- `{'cpu_percent': 80.0, 'memory_percent': 85.0, 'error_rate': 0.1,
'response_time': 30.0, 'success_rate': 0.9}` (`agent_timeout` unused by
`_check_alerts`). -/
def default_thresholds : Thresholds :=
  { cpu_percent := 80, memory_percent := 85, error_rate := 1/10
    response_time := 30, success_rate := 9/10 }

/-- `_create_alert(level, title, message, component, metadata)` at time
`now`: if an unresolved alert for the same `(component, title)` lies
within the 300-second cool-down, return the list unchanged; otherwise
append a fresh unresolved alert stamped `now`. -/
def create_alert (alerts : List Alert) (now : ℤ) (level : AlertLevel)
    (title message component : String) : List Alert :=
  let recent := alerts.filter fun a =>
    decide (now - a.timestamp < 300) && decide (a.component = component) &&
      decide (a.title = title) && !a.resolved
  if recent.isEmpty then
    alerts ++ [{ level := level, title := title, message := message
                 component := component, timestamp := now, resolved := false
                 resolution_time := none }]
  else alerts

/-- `_check_alerts(metrics)`: the five threshold comparisons in source
order, each funnelled through `_create_alert`. -/
def check_alerts (th : Thresholds) (m : HealthMetrics) (alerts : List Alert)
    (now : ℤ) : List Alert :=
  let a1 := if th.cpu_percent < m.cpu_percent then
      create_alert alerts now .warning "CPU使用率过高" "" "system" else alerts
  let a2 := if th.memory_percent < m.memory_percent then
      create_alert a1 now .warning "内存使用率过高" "" "system" else a1
  let a3 := if th.error_rate < m.error_rate then
      create_alert a2 now .error "错误率过高" "" "agents" else a2
  let a4 := if th.response_time < m.response_time then
      create_alert a3 now .warning "响应时间过长" "" "performance" else a3
  if m.success_rate < th.success_rate then
    create_alert a4 now .error "成功率过低" "" "agents"
  else a4

/-- Anything `_create_alert` leaves in the list was already there or is
the one new alert carrying the given component. -/
theorem create_alert_mem (alerts : List Alert) (now : ℤ) (level : AlertLevel)
    (title message component : String) :
    ∀ x ∈ create_alert alerts now level title message component,
      x ∈ alerts ∨ x.component = component := by
  intro x hx
  simp only [create_alert] at hx
  split at hx
  · rcases List.mem_append.mp hx with h | h
    · exact Or.inl h
    · simp at h
      subst h
      exact Or.inr rfl
  · exact Or.inl hx

/-- C9: while an unresolved alert with the same `(component, title)` lies
within the 300s cool-down of `now`, a further breach creates no new
`Alert`; once every such alert has left the window or been resolved, a
new breach appends a fresh unresolved alert stamped `now`. -/
theorem alert_dedup (alerts : List Alert) (now : ℤ) (level : AlertLevel)
    (title message component : String) :
    ((∃ a ∈ alerts, now - a.timestamp < 300 ∧ a.component = component ∧
        a.title = title ∧ a.resolved = false) →
      create_alert alerts now level title message component = alerts) ∧
    ((∀ a ∈ alerts, ¬(now - a.timestamp < 300 ∧ a.component = component ∧
        a.title = title ∧ a.resolved = false)) →
      create_alert alerts now level title message component
        = alerts ++ [{ level := level, title := title, message := message
                       component := component, timestamp := now, resolved := false
                       resolution_time := none }]) := by
  constructor
  · rintro ⟨a, ha, h1, h2, h3, h4⟩
    simp only [create_alert]
    rw [if_neg]
    intro hemp
    rw [List.isEmpty_iff] at hemp
    have : a ∈ (alerts.filter fun a =>
        decide (now - a.timestamp < 300) && decide (a.component = component) &&
          decide (a.title = title) && !a.resolved) := by
      rw [List.mem_filter]
      refine ⟨ha, ?_⟩
      simp [h1, h2, h3, h4]
    rw [hemp] at this
    exact List.not_mem_nil a this
  · intro hall
    simp only [create_alert]
    rw [if_pos]
    rw [List.isEmpty_iff, List.filter_eq_nil_iff]
    intro a ha
    have := hall a ha
    intro hcon
    apply this
    simp only [Bool.and_eq_true, decide_eq_true_eq, Bool.not_eq_true'] at hcon
    exact ⟨hcon.1.1.1, hcon.1.1.2, hcon.1.2, hcon.2⟩

/-- A pre-existing unresolved alert used by the C9 witness. -/
def alertA : Alert :=
  { level := .warning, title := "CPU使用率过高", message := ""
    component := "system", timestamp := 100, resolved := false
    resolution_time := none }

/-- The same alert, resolved. -/
def alertAResolved : Alert :=
  { alertA with resolved := true, resolution_time := some 150 }

/-- Witness for `alert_dedup`: at time 200 the unresolved alert from time
100 suppresses a duplicate; at time 500 it is outside the 300s window and
a new alert is appended; a resolved alert never suppresses. -/
theorem alert_dedup_witness :
    create_alert [alertA] 200 .warning "CPU使用率过高" "" "system" = [alertA] ∧
    create_alert [alertA] 500 .warning "CPU使用率过高" "" "system"
      = [alertA] ++ [{ level := .warning, title := "CPU使用率过高", message := ""
                       component := "system", timestamp := 500, resolved := false
                       resolution_time := none }] ∧
    create_alert [alertAResolved] 200 .warning "CPU使用率过高" "" "system"
      = [alertAResolved] ++ [{ level := .warning, title := "CPU使用率过高", message := ""
                               component := "system", timestamp := 200, resolved := false
                               resolution_time := none }] :=
  ⟨(alert_dedup [alertA] 200 .warning "CPU使用率过高" "" "system").1
      ⟨alertA, by simp, by decide, rfl, rfl, rfl⟩,
    (alert_dedup [alertA] 500 .warning "CPU使用率过高" "" "system").2
      (by decide),
    (alert_dedup [alertAResolved] 200 .warning "CPU使用率过高" "" "system").2
      (by decide)⟩

/-- C10: with `total_requests = 0` the division guard makes the health
sample report `error_rate = 0.0`, `success_rate = 1.0`,
`response_time = 0.0`, and `_check_alerts` on such a sample can only
raise the cpu/memory alerts (component `"system"`): every alert in the
output is pre-existing or a `"system"` alert — in particular no
high-error-rate and no low-success-rate alert is created by a fresh
monitor. -/
theorem fresh_monitor_no_spurious_alerts (st : Stats) (cpu mem : ℚ)
    (active : Nat) (tsamp now : ℤ) (alerts : List Alert)
    (h0 : st.total_requests = 0) :
    (collect_health_metrics st cpu mem active tsamp).error_rate = 0 ∧
    (collect_health_metrics st cpu mem active tsamp).success_rate = 1 ∧
    (collect_health_metrics st cpu mem active tsamp).response_time = 0 ∧
    ∀ a ∈ check_alerts default_thresholds
        (collect_health_metrics st cpu mem active tsamp) alerts now,
      a ∈ alerts ∨ a.component = "system" := by
  have hm : collect_health_metrics st cpu mem active tsamp =
      { timestamp := tsamp, cpu_percent := cpu, memory_percent := mem
        active_agents := active
        error_rate := 0, response_time := 0, success_rate := 1 } := by
    simp [collect_health_metrics, h0]
  refine ⟨by rw [hm], by rw [hm], by rw [hm], ?_⟩
  intro a ha
  rw [hm] at ha
  simp only [check_alerts, default_thresholds] at ha
  rw [if_neg (by norm_num), if_neg (by norm_num), if_neg (by norm_num)] at ha
  by_cases hcpu : (80 : ℚ) < cpu
  · rw [if_pos hcpu] at ha
    by_cases hmem : (85 : ℚ) < mem
    · rw [if_pos hmem] at ha
      rcases create_alert_mem _ _ _ _ _ _ a ha with h | h
      · rcases create_alert_mem _ _ _ _ _ _ a h with h' | h'
        · exact Or.inl h'
        · exact Or.inr h'
      · exact Or.inr h
    · rw [if_neg hmem] at ha
      exact create_alert_mem _ _ _ _ _ _ a ha
  · rw [if_neg hcpu] at ha
    by_cases hmem : (85 : ℚ) < mem
    · rw [if_pos hmem] at ha
      exact create_alert_mem _ _ _ _ _ _ a ha
    · rw [if_neg hmem] at ha
      exact Or.inl ha

/-- Witness for `fresh_monitor_no_spurious_alerts`: the fresh monitor's
counters with a 50%/50% resource sample and no pre-existing alerts. -/
theorem fresh_monitor_no_spurious_alerts_witness :
    (collect_health_metrics initStats 50 50 0 0).error_rate = 0 ∧
    (collect_health_metrics initStats 50 50 0 0).success_rate = 1 ∧
    (collect_health_metrics initStats 50 50 0 0).response_time = 0 ∧
    ∀ a ∈ check_alerts default_thresholds
        (collect_health_metrics initStats 50 50 0 0) [] 0,
      a ∈ ([] : List Alert) ∨ a.component = "system" :=
  fresh_monitor_no_spurious_alerts initStats 50 50 0 0 0 [] rfl

end Monitor

end EssayEval
